import Mathlib

/-!
Verification of the focus-wizard bridge supervision and frame-exchange layer.

The definitions below are shallow embeddings of the repository's
`bridge-manager.ts` (class `BridgeManager`) and `frame-writer.ts`
(class `FrameWriter`): stateful methods become pure state-passing
functions over explicit state records, filesystem and process effects are
made explicit, and text is modelled as `List Char`.
-/

/-! ## Message Protocol Codec

Embeds `BridgeManager.processLines` and the stdout data handler of
`BridgeManager.attachProcessHandlers`: one growing text buffer per session
(`lineBuffer`); each stdout chunk is appended, the buffer is split on
newline characters, the trailing incomplete segment is kept, and every
complete line is trimmed, skipped when empty, and otherwise fed to
`JSON.parse`, discarding lines that fail to parse.  The JSON parser is a
parameter `parse` of the decode functions. -/

/-- Embeds `this.lineBuffer.split("\n")` followed by `lines.pop()`:
the list of complete lines, in order, and the trailing (possibly empty)
incomplete segment that becomes the new buffer. -/
def scanLines : List Char → List (List Char) × List Char
  | [] => ([], [])
  | c :: cs =>
    let r := scanLines cs
    if c = '\n' then ([] :: r.1, r.2)
    else
      match r.1 with
      | [] => ([], c :: r.2)
      | l :: ls => ((c :: l) :: ls, r.2)

/-- Embeds `line.trim()`: whitespace stripped from both ends. -/
def trimChars (l : List Char) : List Char :=
  ((l.dropWhile Char.isWhitespace).reverse.dropWhile Char.isWhitespace).reverse

/-- Embeds the per-line body of `processLines`: trim, `continue` on empty,
`JSON.parse` with parse failures logged and discarded.  Returns the parsed
records in stream order. -/
def decodeLines {M : Type} (parse : List Char → Option M) (lines : List (List Char)) : List M :=
  lines.filterMap fun line =>
    let trimmed := trimChars line
    if trimmed.isEmpty then none else parse trimmed

/-- Embeds one `stdout.on("data")` event: `lineBuffer += chunk` then
`processLines`.  Returns the new buffer and the records decoded from the
complete lines of this round. -/
def feedChunk {M : Type} (parse : List Char → Option M) (buffer chunk : List Char) :
    List Char × List M :=
  let r := scanLines (buffer ++ chunk)
  (r.2, decodeLines parse r.1)

/-- Feed a sequence of stdout chunks one at a time, accumulating the decoded
records in dispatch order. -/
def feedChunks {M : Type} (parse : List Char → Option M) (buffer : List Char) :
    List (List Char) → List Char × List M
  | [] => (buffer, [])
  | c :: cs =>
    let r1 := feedChunk parse buffer c
    let r2 := feedChunks parse r1.1 cs
    (r2.1, r1.2 ++ r2.2)

/-! ## Frame Exchange Channel (`frame-writer.ts`) -/

/-- Decimal digit characters of `n`, most significant first: embeds
`Number.prototype.toString()` on a nonnegative integer.  Fuel-based
structural recursion so that the definition reduces in the kernel. -/
def natDigitsAux : Nat → Nat → List Char
  | 0, _ => []
  | fuel + 1, n =>
    if n < 10 then [Nat.digitChar n]
    else natDigitsAux fuel (n / 10) ++ [Nat.digitChar (n % 10)]

/-- Decimal representation of `n` (`n.toString()` in the source). -/
def natDigits (n : Nat) : List Char := natDigitsAux (n + 1) n

/-- Embeds `String.prototype.padStart(width, c)`: pad on the left up to
`width`; a string already at least `width` long is returned unchanged. -/
def padList (width : Nat) (c : Char) (l : List Char) : List Char :=
  List.replicate (width - l.length) c ++ l

/-- Default frame directory: `path.join(os.tmpdir(), "focus-wizard-frames")`
with the temporary directory modelled as `/tmp`. -/
def defaultFrameDir : String := "/tmp/focus-wizard-frames"

/-- The mutable fields of a `FrameWriter` instance. -/
structure FrameWriter where
  frameDir : String
  frameCount : Nat
  active : Bool
deriving DecidableEq

/-- Embeds `new FrameWriter(frameDir)`. -/
def FrameWriter.make (frameDir : Option String) : FrameWriter :=
  { frameDir := frameDir.getD defaultFrameDir, frameCount := 0, active := false }

/-- The frame directory's filesystem contents: whether the directory exists
and the files (name, bytes) inside it. -/
structure FrameFS where
  dirExists : Bool
  files : List (String × List Nat)
deriving DecidableEq

/-- `fs.writeFileSync` of a file inside the frame directory, with overwrite
semantics for an existing name. -/
def FrameFS.writeFile (fs : FrameFS) (name : String) (dataBytes : List Nat) : FrameFS :=
  { fs with files := (name, dataBytes) :: fs.files.filter fun p => p.1 != name }

/-- The frame filename for a microsecond timestamp: the string `frame`, the
timestamp left-zero-padded to 16 digits, and the suffix `.jpg`
(from `FrameWriter.writeFrame`). -/
def frameFilename (timestampUs : Nat) : String :=
  "frame" ++ String.mk (padList 16 '0' (natDigits timestampUs)) ++ ".jpg"

/-- The `containerFileStreamPath` getter: the in-container file pattern whose
16 zero digits communicate the expected filename width. -/
def FrameWriter.containerFileStreamPath : String := "/frames/frame0000000000000000.jpg"

/-- `FrameWriter.init()`: create the directory if absent, clear any leftover
files, reset the written-frame counter, mark the channel active. -/
def FrameWriter.init (fw : FrameWriter) (_fs : FrameFS) : FrameWriter × FrameFS :=
  ({ fw with frameCount := 0, active := true }, { dirExists := true, files := [] })

/-- `FrameWriter.writeFrame(timestampUs, jpegData)`: a no-op when the channel
is inactive; otherwise write the frame file and increment the counter.  A
write into a missing directory throws in the source and is caught, so the
counter is not incremented and no file appears. -/
def FrameWriter.writeFrame (fw : FrameWriter) (fs : FrameFS) (timestampUs : Nat)
    (jpegData : List Nat) : FrameWriter × FrameFS :=
  if !fw.active then (fw, fs)
  else if fs.dirExists then
    ({ fw with frameCount := fw.frameCount + 1 },
     fs.writeFile (frameFilename timestampUs) jpegData)
  else (fw, fs)

/-- `FrameWriter.writeEndOfStream()`: write the zero-length sentinel file,
swallowing the error when the directory is already gone. -/
def FrameWriter.writeEndOfStream (_fw : FrameWriter) (fs : FrameFS) : FrameFS :=
  if fs.dirExists then fs.writeFile "end_of_stream" [] else fs

/-- `FrameWriter.cleanup()`: mark the channel inactive, then recursively and
forcibly remove the whole directory (best effort). -/
def FrameWriter.cleanup (fw : FrameWriter) (_fs : FrameFS) : FrameWriter × FrameFS :=
  ({ fw with active := false }, { dirExists := false, files := [] })

/-! ## Bridge Process Supervisor (`bridge-manager.ts`) -/

/-- The execution backend; `localMode` is the source's `"local"` mode. -/
inductive BridgeMode where
  | docker
  | localMode
deriving DecidableEq

/-- `BridgeManagerOptions` after the constructor's defaulting:
`mode` is `options.mode || "docker"` and `dockerImage` is
`options.dockerImage || "focus-wizard-bridge"`. -/
structure BridgeManagerOptions where
  apiKey : String
  mode : BridgeMode
  dockerImage : String
  frameDir : Option String
  bridgePath : Option String
  cameraIndex : Option Int
  captureWidth : Option Int
  captureHeight : Option Int
  gazeThreshold : Option Int
  blinkThreshold : Option Int
  pulseThreshold : Option Int
  breathingThreshold : Option Int
deriving DecidableEq

/-- The mutable fields of a `BridgeManager` instance. -/
structure BridgeManager where
  opts : BridgeManagerOptions
  process : Option Nat
  lineBuffer : List Char
  isReady : Bool
  frameWriter : Option FrameWriter
deriving DecidableEq

/-- Embeds `new BridgeManager(options)`. -/
def BridgeManager.make (opts : BridgeManagerOptions) : BridgeManager :=
  { opts := opts, process := none, lineBuffer := [], isReady := false, frameWriter := none }

/-- `BridgeManager.addThresholdArgs(args)`: push each of the four threshold
flags only when the corresponding option is set. -/
def addThresholdArgs (o : BridgeManagerOptions) (args0 : List String) : List String :=
  let args1 := match o.gazeThreshold with
    | some v => args0 ++ ["--gaze_threshold=" ++ toString v]
    | none => args0
  let args2 := match o.blinkThreshold with
    | some v => args1 ++ ["--blink_threshold=" ++ toString v]
    | none => args1
  let args3 := match o.pulseThreshold with
    | some v => args2 ++ ["--pulse_threshold=" ++ toString v]
    | none => args2
  match o.breathingThreshold with
  | some v => args3 ++ ["--breathing_threshold=" ++ toString v]
  | none => args3

/-- The `docker run` argument list assembled in `startDocker`, where `dir`
is the frame writer's host directory. -/
def dockerRunArgs (o : BridgeManagerOptions) (dir : String) : List String :=
  addThresholdArgs o
    ["run", "--rm", "--platform", "linux/amd64", "--name", o.dockerImage,
     "--dns", "8.8.8.8", "--dns", "8.8.4.4",
     "-v", dir ++ ":/frames",
     "-e", "SMARTSPECTRA_API_KEY=" ++ o.apiKey,
     o.dockerImage,
     "--mode=server",
     "--file_stream_path=" ++ FrameWriter.containerFileStreamPath,
     "--erase_read_files=true",
     "--rescan_delay_ms=5"]

/-- The native-binary argument list assembled in `startLocal`. -/
def localArgs (o : BridgeManagerOptions) : List String :=
  let args0 := ["--api_key=" ++ o.apiKey]
  let args1 := match o.cameraIndex with
    | some v => args0 ++ ["--camera_device_index=" ++ toString v]
    | none => args0
  let args2 := match o.captureWidth with
    | some v => args1 ++ ["--capture_width=" ++ toString v]
    | none => args1
  let args3 := match o.captureHeight with
    | some v => args2 ++ ["--capture_height=" ++ toString v]
    | none => args2
  addThresholdArgs o args3

/-- The environment a `start()` call runs against: container runtime and
image state, the variables consulted by `findBridgePath`, filesystem
existence, and the pid the spawn produces. -/
structure SpawnEnv where
  dockerAvailable : Bool
  imageBuilt : Bool
  buildSucceeds : Bool
  buildExitCode : Option Int
  envBridgePath : Option String
  resourcesPath : Option String
  fileExists : String → Bool
  spawnPid : Nat

/-- The `path.join(__dirname, "..", "..", "..", "bridge", "build",
"focus_bridge")` candidate, relative to the module directory. -/
def defaultBuildBridgePath : String := "../../../bridge/build/focus_bridge"

/-- Simplified `path.join` for the resources-path candidate. -/
def pathJoin (a b : String) : String := if a = "" then b else a ++ "/" ++ b

/-- `BridgeManager.findBridgePath()`: first existing candidate among the
explicit override, the environment variable, the default build path and the
installed-resource path; `none` models the thrown error. -/
def findBridgePath (o : BridgeManagerOptions) (env : SpawnEnv) : Option String :=
  let candidates := ([o.bridgePath, env.envBridgePath,
    some defaultBuildBridgePath,
    some (pathJoin (env.resourcesPath.getD "") "focus_bridge")]).filterMap id
  candidates.find? env.fileExists

/-- The errors `start()` can throw. -/
inductive StartError where
  | alreadyRunning
  | dockerUnavailable
  | imageBuildFailed (code : Option Int)
  | binaryNotFound
deriving DecidableEq

/-- Externally visible side effects of the lifecycle methods. -/
inductive Effect where
  | execDockerRm (image : String)
  | spawnProc (cmd : String) (args : List String)
  | writeEndOfStream (dir : String)
  | execDockerStop (image : String)
  | sigterm (pid : Nat)
  | removeDir (dir : String)
deriving DecidableEq

/-- `BridgeManager.startDocker()`: probe the runtime, build the image if
needed, remove a stale container, create and initialize the frame writer,
assemble the `docker run` arguments and spawn.  Status notifications and
the build's progress output are not modelled. -/
def startDocker (env : SpawnEnv) (b : BridgeManager) :
    BridgeManager × List Effect × Option StartError :=
  if !env.dockerAvailable then (b, [], some StartError.dockerUnavailable)
  else if env.imageBuilt || env.buildSucceeds then
    let fw := ((FrameWriter.make b.opts.frameDir).init { dirExists := false, files := [] }).1
    ({ b with frameWriter := some fw, process := some env.spawnPid },
     [Effect.execDockerRm b.opts.dockerImage,
      Effect.spawnProc "docker" (dockerRunArgs b.opts fw.frameDir)],
     none)
  else (b, [], some (StartError.imageBuildFailed env.buildExitCode))

/-- `BridgeManager.startLocal()`: resolve the binary, then spawn it with the
composed arguments. -/
def startLocal (env : SpawnEnv) (b : BridgeManager) :
    BridgeManager × List Effect × Option StartError :=
  match findBridgePath b.opts env with
  | none => (b, [], some StartError.binaryNotFound)
  | some bp =>
    ({ b with process := some env.spawnPid },
     [Effect.spawnProc bp (localArgs b.opts)], none)

/-- `BridgeManager.start()`: reject when a process handle already exists,
otherwise dispatch on the configured backend. -/
def BridgeManager.start (b : BridgeManager) (env : SpawnEnv) :
    BridgeManager × List Effect × Option StartError :=
  if b.process.isSome then (b, [], some StartError.alreadyRunning)
  else match b.opts.mode with
    | BridgeMode.docker => startDocker env b
    | BridgeMode.localMode => startLocal env b

/-- `BridgeManager.stop()`: write the end-of-stream sentinel when a frame
writer exists, request process termination when a process handle exists
(backend-specific), then clean up the frame directory and drop the writer.
The process handle and ready flag are not touched here: the close handler
clears them when the exit is observed. -/
def BridgeManager.stop (b : BridgeManager) : BridgeManager × List Effect :=
  let eosEff : List Effect := match b.frameWriter with
    | some fw => [Effect.writeEndOfStream fw.frameDir]
    | none => []
  let termEff : List Effect := match b.process with
    | some pid => match b.opts.mode with
      | BridgeMode.docker => [Effect.execDockerStop b.opts.dockerImage]
      | BridgeMode.localMode => [Effect.sigterm pid]
    | none => []
  match b.frameWriter with
  | some fw => ({ b with frameWriter := none }, eosEff ++ termEff ++ [Effect.removeDir fw.frameDir])
  | none => (b, eosEff ++ termEff)

/-- The `running` getter: `this.process !== null && this.isReady`. -/
def BridgeManager.running (b : BridgeManager) : Bool := b.process.isSome && b.isReady

/-- Outward notifications emitted by the supervisor. -/
inductive BridgeEvent where
  | ready
  | status (text : String)
  | focus (payload : List (String × String))
  | metrics (payload : List (String × String))
  | edge (payload : List (String × String))
  | bridgeError (message : String)
  | close (exitCode : Option Int)
deriving DecidableEq

/-- The type tag of a decoded bridge message. -/
inductive MsgType where
  | ready
  | status
  | focus
  | metrics
  | edge
  | error
  | unknown (tag : String)
deriving DecidableEq

/-- A decoded JSON-line record: a type tag and its payload, the payload
modelled as a field map. -/
structure BridgeMessage where
  type : MsgType
  data : List (String × String)
deriving DecidableEq

/-- Field access on a message payload, the empty string when absent. -/
def lookupField (d : List (String × String)) (k : String) : String :=
  match d.find? (fun p => p.1 == k) with
  | some p => p.2
  | none => ""

/-- `BridgeManager.handleMessage(message)`: dispatch on the type tag;
`ready` marks the session ready; unknown tags are logged and discarded. -/
def BridgeManager.handleMessage (b : BridgeManager) (m : BridgeMessage) :
    BridgeManager × List BridgeEvent :=
  match m.type with
  | MsgType.ready => ({ b with isReady := true }, [BridgeEvent.ready])
  | MsgType.focus => (b, [BridgeEvent.focus m.data])
  | MsgType.metrics => (b, [BridgeEvent.metrics m.data])
  | MsgType.edge => (b, [BridgeEvent.edge m.data])
  | MsgType.status => (b, [BridgeEvent.status (lookupField m.data "status")])
  | MsgType.error => (b, [BridgeEvent.bridgeError (lookupField m.data "message")])
  | MsgType.unknown _ => (b, [])

/-- The `close` handler wired in `attachProcessHandlers`: clear the process
handle, clear the ready flag, emit a close notification with the exit
code. -/
def BridgeManager.processClose (b : BridgeManager) (code : Option Int) :
    BridgeManager × List BridgeEvent :=
  ({ b with process := none, isReady := false }, [BridgeEvent.close code])

/-- Dispatch a list of decoded records through `handleMessage` in order. -/
def BridgeManager.dispatchAll (b : BridgeManager) : List BridgeMessage →
    BridgeManager × List BridgeEvent
  | [] => (b, [])
  | m :: ms =>
    let r1 := b.handleMessage m
    let r2 := r1.1.dispatchAll ms
    (r2.1, r1.2 ++ r2.2)

/-- The stdout data handler: extend the line buffer with the chunk, consume
the complete lines, dispatch every decoded record. -/
def BridgeManager.onStdoutChunk (parse : List Char → Option BridgeMessage)
    (b : BridgeManager) (chunk : List Char) : BridgeManager × List BridgeEvent :=
  let r := feedChunk parse b.lineBuffer chunk
  BridgeManager.dispatchAll { b with lineBuffer := r.1 } r.2

/-! ## Auxiliary predicates used by the theorems -/

/-- `p` is a prefix of `s` (character lists). -/
def strPre (p s : List Char) : Prop := ∃ t, p ++ t = s

theorem strPre_iff (p s : List Char) : List.take p.length s = p ↔ strPre p s := by
  constructor
  · intro h
    refine ⟨List.drop p.length s, ?_⟩
    conv_rhs => rw [← List.take_append_drop p.length s]
    rw [h]
  · rintro ⟨t, rfl⟩
    exact List.take_left p t

instance (p s : List Char) : Decidable (strPre p s) :=
  decidable_of_iff _ (strPre_iff p s)

/-- The argument list contains an argument carrying the given flag, i.e. an
element beginning with the flag's `--name=` prefix. -/
def hasFlag (args : List String) (flag : String) : Prop :=
  ∃ a ∈ args, strPre flag.data a.data

/-- Big-endian fixed-width decimal digit list: exactly `width` digit
characters of `n % 10 ^ width`.  Reference form used to reason about the
zero-padded filenames. -/
def digitsBE : Nat → Nat → List Char
  | 0, _ => []
  | width + 1, n => digitsBE width (n / 10) ++ [Nat.digitChar (n % 10)]

/-- The argument contributed by one optional numeric flag: the rendered
`--name=value` argument when the option is set, nothing otherwise.  Normal
form used to reason about `addThresholdArgs`, `localArgs` and
`dockerRunArgs`. -/
def optFlag (o : Option Int) (pre : String) : List String :=
  match o with
  | some v => [pre ++ toString v]
  | none => []

/-- A session configuration whose image name collides with a threshold
flag: every threshold option is unset, yet the composed docker argument
list contains an argument that is a gaze-threshold flag. -/
def collidingOpts : BridgeManagerOptions :=
  { apiKey := "k", mode := BridgeMode.docker, dockerImage := "--gaze_threshold=1",
    frameDir := none, bridgePath := none, cameraIndex := none,
    captureWidth := none, captureHeight := none, gazeThreshold := none,
    blinkThreshold := none, pulseThreshold := none, breathingThreshold := none }

/-- An ordinary session configuration (default image name, a mix of set and
unset optional flags) used to instantiate the flag-composition theorem. -/
def sampleFlagOpts : BridgeManagerOptions :=
  { apiKey := "k", mode := BridgeMode.docker, dockerImage := "focus-wizard-bridge",
    frameDir := none, bridgePath := none, cameraIndex := some 0,
    captureWidth := none, captureHeight := some 720, gazeThreshold := some 40,
    blinkThreshold := none, pulseThreshold := some 3, breathingThreshold := none }

/-! ## Codec lemmas -/

theorem scanLines_cons (c : Char) (cs : List Char) :
    scanLines (c :: cs) =
      if c = '\n' then ([] :: (scanLines cs).1, (scanLines cs).2)
      else
        match (scanLines cs).1 with
        | [] => ([], c :: (scanLines cs).2)
        | l :: ls => ((c :: l) :: ls, (scanLines cs).2) := rfl

theorem scanLines_of_not_mem (s : List Char) (h : '\n' ∉ s) : scanLines s = ([], s) := by
  induction s with
  | nil => rfl
  | cons c cs ih =>
    rw [List.mem_cons, not_or] at h
    rw [scanLines_cons, if_neg (fun e => h.1 e.symm), ih h.2]

theorem not_mem_scanLines_snd (s : List Char) : '\n' ∉ (scanLines s).2 := by
  induction s with
  | nil => simp [scanLines]
  | cons c cs ih =>
    rw [scanLines_cons]
    by_cases hc : c = '\n'
    · simpa [hc] using ih
    · rw [if_neg hc]
      cases hA : (scanLines cs).1 with
      | nil =>
        intro hmem
        rcases List.mem_cons.1 hmem with e | hm
        · exact hc e.symm
        · exact ih hm
      | cons l ls => simpa using ih

theorem scanLines_newline (a rest : List Char) (h : '\n' ∉ a) :
    scanLines (a ++ '\n' :: rest) = (a :: (scanLines rest).1, (scanLines rest).2) := by
  induction a with
  | nil => simp [scanLines_cons]
  | cons c a2 ih =>
    rw [List.mem_cons, not_or] at h
    rw [List.cons_append, scanLines_cons, ih h.2, if_neg (fun e => h.1 e.symm)]

theorem scanLines_append (a b : List Char) :
    scanLines (a ++ b) =
      ((scanLines a).1 ++ (scanLines ((scanLines a).2 ++ b)).1,
       (scanLines ((scanLines a).2 ++ b)).2) := by
  induction a with
  | nil => simp [scanLines]
  | cons c cs ih =>
    rw [List.cons_append, scanLines_cons c (cs ++ b), ih, scanLines_cons c cs]
    by_cases hc : c = '\n'
    · simp [hc]
    · rw [if_neg hc, if_neg hc]
      cases hA : (scanLines cs).1 with
      | nil =>
        rw [List.nil_append, List.cons_append, scanLines_cons, if_neg hc]
        cases hB : (scanLines ((scanLines cs).2 ++ b)).1 with
        | nil => simp
        | cons l ls => simp
      | cons l ls => simp

theorem feedChunk_append {M : Type} (parse : List Char → Option M) (st x y : List Char) :
    feedChunk parse st (x ++ y) =
      ((feedChunk parse (feedChunk parse st x).1 y).1,
       (feedChunk parse st x).2 ++ (feedChunk parse (feedChunk parse st x).1 y).2) := by
  unfold feedChunk
  rw [← List.append_assoc, scanLines_append (st ++ x) y]
  simp [decodeLines, List.filterMap_append]

theorem feedChunks_flatten {M : Type} (parse : List Char → Option M) (chunks : List (List Char)) :
    ∀ buffer, '\n' ∉ buffer → feedChunks parse buffer chunks = feedChunk parse buffer chunks.flatten := by
  induction chunks with
  | nil =>
    intro buffer h
    simp [feedChunks, feedChunk, scanLines_of_not_mem buffer h, decodeLines]
  | cons c cs ih =>
    intro buffer _
    rw [List.flatten_cons, feedChunk_append]
    simp only [feedChunks]
    rw [ih (feedChunk parse buffer c).1 (not_mem_scanLines_snd (buffer ++ c))]

/-! ## Claim C2, C3, C9 theorems -/

/-- C2: for every byte stream and every way of splitting it into chunks
(including splits in the middle of a JSON line), feeding the chunks to the
codec one at a time yields exactly the same buffer and the same sequence of
decoded event records, in stream order, as feeding the whole stream as one
chunk. -/
theorem chunked_decode_eq_unsplit {M : Type} (parse : List Char → Option M)
    (chunks : List (List Char)) :
    feedChunks parse [] chunks = feedChunk parse [] chunks.flatten :=
  feedChunks_flatten parse chunks [] (by simp)

/-- C3: a stream of a valid line, a malformed line and a valid line decodes
both valid lines' records in order; the malformed line is discarded without
an error and without ending the decode of the rest of the stream. -/
theorem malformed_line_skipped {M : Type} (parse : List Char → Option M)
    (l1 lm l2 : List Char) (m1 m2 : M)
    (h1 : '\n' ∉ l1) (hm : '\n' ∉ lm) (h2 : '\n' ∉ l2)
    (hp1 : parse (trimChars l1) = some m1)
    (hpm : parse (trimChars lm) = none)
    (hp2 : parse (trimChars l2) = some m2)
    (hne1 : (trimChars l1).isEmpty = false)
    (hne2 : (trimChars l2).isEmpty = false) :
    feedChunk parse [] (l1 ++ '\n' :: (lm ++ '\n' :: (l2 ++ ['\n']))) = ([], [m1, m2]) := by
  unfold feedChunk
  rw [List.nil_append, scanLines_newline l1 _ h1, scanLines_newline lm _ hm,
    scanLines_newline l2 _ h2]
  simp only [scanLines]
  have ne1 : ¬ trimChars l1 = [] := by simpa using hne1
  have ne2 : ¬ trimChars l2 = [] := by simpa using hne2
  by_cases he : trimChars lm = []
  · simp [decodeLines, ne1, ne2, hp1, hp2, he]
  · simp [decodeLines, ne1, ne2, hp1, hp2, hpm, he]

/-- C3 witness: a concrete parser and three concrete lines exercising the
theorem. -/
theorem malformed_line_skipped_witness :
    feedChunk (fun l => if l = ['g'] then some 1 else if l = ['h'] then some 2 else none)
      [] (['g'] ++ '\n' :: (['x'] ++ '\n' :: (['h'] ++ ['\n']))) = ([], [1, 2]) :=
  malformed_line_skipped _ ['g'] ['x'] ['h'] 1 2 (by decide) (by decide) (by decide)
    (by decide) (by decide) (by decide) (by decide) (by decide)

/-- C9: after processing any sequence of input chunks from the initial empty
buffer, the pending decode buffer contains no line terminator: it holds at
most one partial line and every complete line received has been consumed. -/
theorem lineBuffer_no_newline {M : Type} (parse : List Char → Option M)
    (chunks : List (List Char)) :
    '\n' ∉ (feedChunks parse [] chunks).1 := by
  rw [feedChunks_flatten parse chunks [] (by simp)]
  exact not_mem_scanLines_snd _

/-! ## Claim C4, C5, C6, C8, C10 theorems -/

/-- C4: calling start() while a session is active (a process handle exists)
fails with AlreadyRunning, performs no effect and leaves the whole session
state (process handle, ready flag, frame channel, decode buffer) exactly as
it was. -/
theorem start_alreadyRunning (b : BridgeManager) (env : SpawnEnv)
    (h : b.process.isSome = true) :
    b.start env = (b, [], some StartError.alreadyRunning) := by
  simp [BridgeManager.start, h]

/-- C4 witness: a concrete active session rejected by start(). -/
theorem start_alreadyRunning_witness :
    BridgeManager.start
      { opts := { apiKey := "k", mode := BridgeMode.docker, dockerImage := "focus-wizard-bridge",
                  frameDir := none, bridgePath := none, cameraIndex := none,
                  captureWidth := none, captureHeight := none, gazeThreshold := none,
                  blinkThreshold := none, pulseThreshold := none, breathingThreshold := none },
        process := some 7, lineBuffer := [], isReady := true, frameWriter := none }
      { dockerAvailable := true, imageBuilt := true, buildSucceeds := true,
        buildExitCode := none, envBridgePath := none, resourcesPath := none,
        fileExists := fun _ => false, spawnPid := 42 } =
    ({ opts := { apiKey := "k", mode := BridgeMode.docker, dockerImage := "focus-wizard-bridge",
                 frameDir := none, bridgePath := none, cameraIndex := none,
                 captureWidth := none, captureHeight := none, gazeThreshold := none,
                 blinkThreshold := none, pulseThreshold := none, breathingThreshold := none },
       process := some 7, lineBuffer := [], isReady := true, frameWriter := none },
     [], some StartError.alreadyRunning) :=
  start_alreadyRunning _ _ rfl

/-- C5: stop() with no active session is a no-op: from the initial state
(before any start) two consecutive stop() calls each return the unchanged
state, perform no effect and raise no error. -/
theorem stop_idempotent_initial (opts : BridgeManagerOptions) :
    (BridgeManager.make opts).stop = (BridgeManager.make opts, []) ∧
    ((BridgeManager.make opts).stop.1).stop = (BridgeManager.make opts, []) := by
  constructor <;> rfl

/-- C6: the running query is true exactly when a process handle exists and
the ready flag (set by observing a ready event) is set; observing process
exit with any code clears the handle, clears the ready flag, emits a close
notification carrying that code, and running is false immediately after. -/
theorem running_iff_and_close (b : BridgeManager) (code : Option Int)
    (d : List (String × String)) :
    (b.running = true ↔ b.process.isSome = true ∧ b.isReady = true) ∧
    (b.handleMessage { type := MsgType.ready, data := d }).1.isReady = true ∧
    (b.processClose code).1.process = none ∧
    (b.processClose code).1.isReady = false ∧
    (b.processClose code).2 = [BridgeEvent.close code] ∧
    (b.processClose code).1.running = false := by
  refine ⟨?_, rfl, rfl, rfl, rfl, rfl⟩
  simp [BridgeManager.running]

/-- C8: writeFrame called after cleanup() (channel inactive) does not throw,
writes no file, does not recreate the directory, and leaves the channel
state (frame counter, active flag, directory path) unchanged. -/
theorem writeFrame_after_cleanup (fw : FrameWriter) (fs : FrameFS) (t : Nat)
    (dataBytes : List Nat) :
    ((fw.cleanup fs).1).writeFrame ((fw.cleanup fs).2) t dataBytes = fw.cleanup fs := by
  simp [FrameWriter.cleanup, FrameWriter.writeFrame]

/-- C10: stop() itself never modifies the process handle or the ready flag,
so running is unchanged by stop(); only observing process exit afterwards
makes running false. -/
theorem stop_preserves_running (b : BridgeManager) (code : Option Int) :
    (b.stop.1.process = b.process) ∧ (b.stop.1.isReady = b.isReady) ∧
    (b.stop.1.running = b.running) ∧ ((b.stop.1.processClose code).1.running = false) := by
  cases hfw : b.frameWriter <;>
    simp [BridgeManager.stop, BridgeManager.running, BridgeManager.processClose, hfw]

/-! ## Digit and lexicographic-order lemmas for C1 -/

theorem digitChar_lt_digitChar : ∀ a < 10, ∀ b < 10, a < b →
    Nat.digitChar a < Nat.digitChar b := by decide

theorem natDigitsAux_fuel (f1 : Nat) : ∀ (f2 n : Nat), n < f1 → n < f2 →
    natDigitsAux f1 n = natDigitsAux f2 n := by
  induction f1 with
  | zero => intro f2 n h1 _; omega
  | succ f1 ih =>
    intro f2 n h1 h2
    cases f2 with
    | zero => omega
    | succ f2 =>
      simp only [natDigitsAux]
      by_cases hn : n < 10
      · simp [hn]
      · have hd : n / 10 < n := Nat.div_lt_self (by omega) (by omega)
        rw [if_neg hn, if_neg hn, ih f2 (n / 10) (by omega) (by omega)]

theorem natDigits_lt10 (n : Nat) (h : n < 10) : natDigits n = [Nat.digitChar n] := by
  simp [natDigits, natDigitsAux, h]

theorem natDigits_ge10 (n : Nat) (h : ¬ n < 10) :
    natDigits n = natDigits (n / 10) ++ [Nat.digitChar (n % 10)] := by
  have hd : n / 10 < n := Nat.div_lt_self (by omega) (by omega)
  unfold natDigits
  conv_lhs => rw [natDigitsAux]
  rw [if_neg h, natDigitsAux_fuel n (n / 10 + 1) (n / 10) (by omega) (by omega)]

theorem digitsBE_length : ∀ (k n : Nat), (digitsBE k n).length = k := by
  intro k
  induction k with
  | zero => intro n; rfl
  | succ k ih => intro n; simp [digitsBE, ih]

theorem digitsBE_zero : ∀ k : Nat, digitsBE k 0 = List.replicate k '0' := by
  intro k
  induction k with
  | zero => rfl
  | succ k ih =>
    rw [digitsBE, Nat.zero_div, ih, List.replicate_succ']
    rfl

theorem lex_append_right {xs ys : List Char} (h : List.Lex (· < ·) xs ys)
    (hlen : xs.length = ys.length) (as bs : List Char) :
    List.Lex (· < ·) (xs ++ as) (ys ++ bs) := by
  induction h with
  | nil => simp at hlen
  | cons _ ih => exact List.Lex.cons (ih (by simpa using hlen))
  | rel h => exact List.Lex.rel h

theorem lex_append_last : ∀ (xs : List Char) {a b : Char}, a < b →
    List.Lex (· < ·) (xs ++ [a]) (xs ++ [b]) := by
  intro xs
  induction xs with
  | nil => intro a b h; exact List.Lex.rel h
  | cons c cs ih => intro a b h; exact List.Lex.cons (ih h)

theorem lex_prepend : ∀ (p : List Char) {xs ys : List Char},
    List.Lex (· < ·) xs ys → List.Lex (· < ·) (p ++ xs) (p ++ ys) := by
  intro p
  induction p with
  | nil => intro xs ys h; exact h
  | cons c cs ih => intro xs ys h; exact List.Lex.cons (ih h)

theorem digitsBE_mono : ∀ (k : Nat) {n1 n2 : Nat}, n1 < n2 → n2 < 10 ^ k →
    List.Lex (· < ·) (digitsBE k n1) (digitsBE k n2) := by
  intro k
  induction k with
  | zero => intro n1 n2 h12 h2; omega
  | succ k ih =>
    intro n1 n2 h12 h2
    have hq : n1 / 10 ≤ n2 / 10 := Nat.div_le_div_right (le_of_lt h12)
    rcases lt_or_eq_of_le hq with hlt | heq
    · have h2q : n2 / 10 < 10 ^ k := by
        rw [Nat.div_lt_iff_lt_mul (by omega)]
        rw [pow_succ] at h2
        exact h2
      exact lex_append_right (ih hlt h2q) (by rw [digitsBE_length, digitsBE_length]) _ _
    · have d1 := Nat.div_add_mod n1 10
      have d2 := Nat.div_add_mod n2 10
      have hm : n1 % 10 < n2 % 10 := by omega
      show List.Lex (· < ·) (digitsBE k (n1 / 10) ++ [Nat.digitChar (n1 % 10)])
        (digitsBE k (n2 / 10) ++ [Nat.digitChar (n2 % 10)])
      rw [heq]
      exact lex_append_last _
        (digitChar_lt_digitChar _ (Nat.mod_lt _ (by omega)) _ (Nat.mod_lt _ (by omega)) hm)

theorem padList_digitsBE : ∀ (k : Nat), ∀ n < 10 ^ (k + 1),
    padList (k + 1) '0' (natDigits n) = digitsBE (k + 1) n := by
  intro k
  induction k with
  | zero =>
    intro n hn
    have hn10 : n < 10 := by simpa using hn
    rw [natDigits_lt10 n hn10]
    show List.replicate (1 - 1) '0' ++ [Nat.digitChar n] = digitsBE 0 (n / 10) ++ [Nat.digitChar (n % 10)]
    rw [Nat.mod_eq_of_lt hn10]
    rfl
  | succ k ih =>
    intro n hn
    by_cases h10 : n < 10
    · rw [natDigits_lt10 n h10]
      show List.replicate (k + 2 - 1) '0' ++ [Nat.digitChar n] =
        digitsBE (k + 1) (n / 10) ++ [Nat.digitChar (n % 10)]
      rw [Nat.div_eq_of_lt h10, Nat.mod_eq_of_lt h10, digitsBE_zero]
      rfl
    · rw [natDigits_ge10 n h10]
      have hdiv : n / 10 < 10 ^ (k + 1) := by
        rw [Nat.div_lt_iff_lt_mul (by omega)]
        rw [pow_succ] at hn
        exact hn
      have hlen : (natDigits (n / 10) ++ [Nat.digitChar (n % 10)]).length
          = (natDigits (n / 10)).length + 1 := by simp
      unfold padList
      rw [hlen, Nat.add_sub_add_right, ← List.append_assoc]
      rw [show List.replicate (k + 1 - (natDigits (n / 10)).length) '0' ++ natDigits (n / 10) =
            padList (k + 1) '0' (natDigits (n / 10)) from rfl,
        ih (n / 10) hdiv]
      rfl

/-! ## Claim C1 theorem -/

/-- C1: for valid microsecond timestamps that fit the 16-digit field,
t1 < t2 implies the frame filenames produced by writeFrame compare in the
same lexicographic order as strings, so directory-listing order equals
capture order. -/
theorem frameFilename_mono (t1 t2 : Nat) (h12 : t1 < t2) (h2 : t2 < 10 ^ 16) :
    frameFilename t1 < frameFilename t2 := by
  rw [String.lt_iff_toList_lt]
  show List.Lex (· < ·) (frameFilename t1).toList (frameFilename t2).toList
  have e : ∀ t : Nat, (frameFilename t).toList =
      "frame".toList ++ (padList 16 '0' (natDigits t) ++ ".jpg".toList) := by
    intro t
    simp [frameFilename, String.toList]
  rw [e t1, e t2]
  have p1 : padList 16 '0' (natDigits t1) = digitsBE 16 t1 :=
    padList_digitsBE 15 t1 (lt_trans h12 h2)
  have p2 : padList 16 '0' (natDigits t2) = digitsBE 16 t2 :=
    padList_digitsBE 15 t2 h2
  rw [p1, p2]
  exact lex_prepend _
    (lex_append_right (digitsBE_mono 16 h12 h2)
      (by rw [digitsBE_length, digitsBE_length]) _ _)

/-- C1 witness: two concrete timestamps and their ordered filenames. -/
theorem frameFilename_mono_witness : frameFilename 500 < frameFilename 1000 :=
  frameFilename_mono 500 1000 (by decide) (by decide)

/-! ## Prefix and flag lemmas for C7 -/

theorem string_data_append (s t : String) : (s ++ t).data = s.data ++ t.data := by simp

theorem strPre_append_self (p t : List Char) : strPre p (p ++ t) := ⟨t, rfl⟩

theorem strPre_append_cases {p a : List Char} (t : List Char) (h : strPre p (a ++ t)) :
    strPre p a ∨ strPre a p := by
  rcases h with ⟨u, hu⟩
  rcases le_total p.length a.length with hle | hle
  · left
    rw [← strPre_iff]
    have h1 : List.take p.length (p ++ u) = p := List.take_left p u
    rw [hu, List.take_append_of_le_length hle] at h1
    exact h1
  · right
    rw [← strPre_iff]
    have h1 : List.take a.length (a ++ t) = a := List.take_left a t
    rw [← hu, List.take_append_of_le_length hle] at h1
    exact h1

theorem not_strPre_append {p a : List Char} (t : List Char)
    (h1 : ¬ strPre p a) (h2 : ¬ strPre a p) : ¬ strPre p (a ++ t) :=
  fun h => (strPre_append_cases t h).elim h1 h2

theorem hasFlag_append (xs ys : List String) (f : String) :
    hasFlag (xs ++ ys) f ↔ hasFlag xs f ∨ hasFlag ys f := by
  constructor
  · rintro ⟨a, ha, hp⟩
    rcases List.mem_append.1 ha with h | h
    · exact Or.inl ⟨a, h, hp⟩
    · exact Or.inr ⟨a, h, hp⟩
  · rintro (⟨a, h, hp⟩ | ⟨a, h, hp⟩)
    · exact ⟨a, List.mem_append.2 (Or.inl h), hp⟩
    · exact ⟨a, List.mem_append.2 (Or.inr h), hp⟩

theorem hasFlag_optFlag_self (o : Option Int) (pre : String) :
    hasFlag (optFlag o pre) pre ↔ o.isSome = true := by
  cases o with
  | none => simp [optFlag, hasFlag]
  | some v =>
    simp only [optFlag, Option.isSome_some, iff_true]
    exact ⟨pre ++ toString v, List.mem_cons_self _ _,
      by rw [string_data_append]; exact strPre_append_self _ _⟩

theorem hasFlag_optFlag_ne (o : Option Int) (pre f : String)
    (h1 : ¬ strPre f.data pre.data) (h2 : ¬ strPre pre.data f.data) :
    ¬ hasFlag (optFlag o pre) f := by
  cases o with
  | none => rintro ⟨a, ha, _⟩; simp [optFlag] at ha
  | some v =>
    rintro ⟨a, ha, hp⟩
    simp only [optFlag, List.mem_singleton] at ha
    subst ha
    rw [string_data_append] at hp
    exact (not_strPre_append _ h1 h2) hp

theorem not_hasFlag_single {x f : String} (h : ¬ strPre f.data x.data) : ¬ hasFlag [x] f := by
  rintro ⟨a, ha, hp⟩
  rw [List.mem_singleton] at ha
  subst ha
  exact h hp

theorem addThresholdArgs_eq (o : BridgeManagerOptions) (args : List String) :
    addThresholdArgs o args =
      args ++ optFlag o.gazeThreshold "--gaze_threshold=" ++
        optFlag o.blinkThreshold "--blink_threshold=" ++
        optFlag o.pulseThreshold "--pulse_threshold=" ++
        optFlag o.breathingThreshold "--breathing_threshold=" := by
  unfold addThresholdArgs optFlag
  cases o.gazeThreshold <;> cases o.blinkThreshold <;> cases o.pulseThreshold <;>
    cases o.breathingThreshold <;> simp

theorem localArgs_eq (o : BridgeManagerOptions) :
    localArgs o =
      addThresholdArgs o
        (["--api_key=" ++ o.apiKey] ++ optFlag o.cameraIndex "--camera_device_index=" ++
          optFlag o.captureWidth "--capture_width=" ++
          optFlag o.captureHeight "--capture_height=") := by
  unfold localArgs optFlag
  cases o.cameraIndex <;> cases o.captureWidth <;> cases o.captureHeight <;> simp

theorem hasFlag_addThreshold_gaze (o : BridgeManagerOptions) (args : List String) :
    hasFlag (addThresholdArgs o args) "--gaze_threshold=" ↔
      hasFlag args "--gaze_threshold=" ∨ o.gazeThreshold.isSome = true := by
  rw [addThresholdArgs_eq]
  simp only [hasFlag_append, hasFlag_optFlag_self]
  have nb := hasFlag_optFlag_ne o.blinkThreshold "--blink_threshold=" "--gaze_threshold="
    (by decide) (by decide)
  have np := hasFlag_optFlag_ne o.pulseThreshold "--pulse_threshold=" "--gaze_threshold="
    (by decide) (by decide)
  have nr := hasFlag_optFlag_ne o.breathingThreshold "--breathing_threshold=" "--gaze_threshold="
    (by decide) (by decide)
  tauto

theorem hasFlag_addThreshold_blink (o : BridgeManagerOptions) (args : List String) :
    hasFlag (addThresholdArgs o args) "--blink_threshold=" ↔
      hasFlag args "--blink_threshold=" ∨ o.blinkThreshold.isSome = true := by
  rw [addThresholdArgs_eq]
  simp only [hasFlag_append, hasFlag_optFlag_self]
  have ng := hasFlag_optFlag_ne o.gazeThreshold "--gaze_threshold=" "--blink_threshold="
    (by decide) (by decide)
  have np := hasFlag_optFlag_ne o.pulseThreshold "--pulse_threshold=" "--blink_threshold="
    (by decide) (by decide)
  have nr := hasFlag_optFlag_ne o.breathingThreshold "--breathing_threshold=" "--blink_threshold="
    (by decide) (by decide)
  tauto

theorem hasFlag_addThreshold_pulse (o : BridgeManagerOptions) (args : List String) :
    hasFlag (addThresholdArgs o args) "--pulse_threshold=" ↔
      hasFlag args "--pulse_threshold=" ∨ o.pulseThreshold.isSome = true := by
  rw [addThresholdArgs_eq]
  simp only [hasFlag_append, hasFlag_optFlag_self]
  have ng := hasFlag_optFlag_ne o.gazeThreshold "--gaze_threshold=" "--pulse_threshold="
    (by decide) (by decide)
  have nb := hasFlag_optFlag_ne o.blinkThreshold "--blink_threshold=" "--pulse_threshold="
    (by decide) (by decide)
  have nr := hasFlag_optFlag_ne o.breathingThreshold "--breathing_threshold=" "--pulse_threshold="
    (by decide) (by decide)
  tauto

theorem hasFlag_addThreshold_breathing (o : BridgeManagerOptions) (args : List String) :
    hasFlag (addThresholdArgs o args) "--breathing_threshold=" ↔
      hasFlag args "--breathing_threshold=" ∨ o.breathingThreshold.isSome = true := by
  rw [addThresholdArgs_eq]
  simp only [hasFlag_append, hasFlag_optFlag_self]
  have ng := hasFlag_optFlag_ne o.gazeThreshold "--gaze_threshold=" "--breathing_threshold="
    (by decide) (by decide)
  have nb := hasFlag_optFlag_ne o.blinkThreshold "--blink_threshold=" "--breathing_threshold="
    (by decide) (by decide)
  have np := hasFlag_optFlag_ne o.pulseThreshold "--pulse_threshold=" "--breathing_threshold="
    (by decide) (by decide)
  tauto

theorem hasFlag_addThreshold_other (o : BridgeManagerOptions) (args : List String) (f : String)
    (hg1 : ¬ strPre f.data "--gaze_threshold=".data)
    (hg2 : ¬ strPre "--gaze_threshold=".data f.data)
    (hb1 : ¬ strPre f.data "--blink_threshold=".data)
    (hb2 : ¬ strPre "--blink_threshold=".data f.data)
    (hq1 : ¬ strPre f.data "--pulse_threshold=".data)
    (hq2 : ¬ strPre "--pulse_threshold=".data f.data)
    (hr1 : ¬ strPre f.data "--breathing_threshold=".data)
    (hr2 : ¬ strPre "--breathing_threshold=".data f.data) :
    hasFlag (addThresholdArgs o args) f ↔ hasFlag args f := by
  rw [addThresholdArgs_eq]
  simp only [hasFlag_append]
  have ng := hasFlag_optFlag_ne o.gazeThreshold "--gaze_threshold=" f hg1 hg2
  have nb := hasFlag_optFlag_ne o.blinkThreshold "--blink_threshold=" f hb1 hb2
  have np := hasFlag_optFlag_ne o.pulseThreshold "--pulse_threshold=" f hq1 hq2
  have nr := hasFlag_optFlag_ne o.breathingThreshold "--breathing_threshold=" f hr1 hr2
  tauto

theorem dockerBase_no_threshold (o : BridgeManagerOptions) (dir : String) (f : String)
    (himg : ¬ strPre f.data o.dockerImage.data)
    (hmount : ¬ strPre f.data (dir ++ ":/frames").data)
    (hfix : ∀ x ∈ (["run", "--rm", "--platform", "linux/amd64", "--name", "--dns", "8.8.8.8",
        "8.8.4.4", "-v", "-e", "--mode=server", "--erase_read_files=true",
        "--rescan_delay_ms=5"] : List String), ¬ strPre f.data x.data)
    (hapi1 : ¬ strPre f.data "SMARTSPECTRA_API_KEY=".data)
    (hapi2 : ¬ strPre "SMARTSPECTRA_API_KEY=".data f.data)
    (hfsp : ¬ strPre f.data ("--file_stream_path=" ++ FrameWriter.containerFileStreamPath).data) :
    ¬ hasFlag (["run", "--rm", "--platform", "linux/amd64", "--name", o.dockerImage,
      "--dns", "8.8.8.8", "--dns", "8.8.4.4",
      "-v", dir ++ ":/frames",
      "-e", "SMARTSPECTRA_API_KEY=" ++ o.apiKey,
      o.dockerImage,
      "--mode=server",
      "--file_stream_path=" ++ FrameWriter.containerFileStreamPath,
      "--erase_read_files=true",
      "--rescan_delay_ms=5"]) f := by
  rintro ⟨a, ha, hp⟩
  simp only [List.mem_cons, List.not_mem_nil, or_false] at ha
  rcases ha with rfl | rfl | rfl | rfl | rfl | rfl | rfl | rfl | rfl | rfl | rfl | rfl | rfl |
    rfl | rfl | rfl | rfl | rfl | rfl
  all_goals first
    | exact himg hp
    | exact hmount hp
    | exact hfsp hp
    | exact (by rw [string_data_append] at hp; exact not_strPre_append _ hapi1 hapi2 hp)
    | exact hfix _ (by decide) hp

theorem localBase_no (o : BridgeManagerOptions) (f : String)
    (ha1 : ¬ strPre f.data "--api_key=".data) (ha2 : ¬ strPre "--api_key=".data f.data)
    (hc : ¬ hasFlag (optFlag o.cameraIndex "--camera_device_index=") f)
    (hw : ¬ hasFlag (optFlag o.captureWidth "--capture_width=") f)
    (hh : ¬ hasFlag (optFlag o.captureHeight "--capture_height=") f) :
    ¬ hasFlag (["--api_key=" ++ o.apiKey] ++ optFlag o.cameraIndex "--camera_device_index=" ++
      optFlag o.captureWidth "--capture_width=" ++
      optFlag o.captureHeight "--capture_height=") f := by
  simp only [hasFlag_append]
  have napi : ¬ hasFlag ["--api_key=" ++ o.apiKey] f := by
    apply not_hasFlag_single
    rw [string_data_append]
    exact not_strPre_append _ ha1 ha2
  tauto

/-! ## Claim C7 theorems -/

/-- C7 counterexample: the claim as stated fails on the code.  With a
configured image name that itself reads as a threshold flag, the composed
docker argument list contains a gaze-threshold flag although the gaze
threshold option is unset. -/
theorem composed_args_flags_counterexample :
    hasFlag (dockerRunArgs collidingOpts (collidingOpts.frameDir.getD defaultFrameDir))
      "--gaze_threshold=" ∧
    collidingOpts.gazeThreshold = none := by
  constructor
  · exact ⟨"--gaze_threshold=1", by decide, by decide⟩
  · rfl

/-- C7 (amended): a threshold flag appears in the composed argument list if
and only if the corresponding threshold option is explicitly set, and in
native mode the same holds for the camera-index and capture-geometry flags —
unconditionally for the native backend, and for the containerized backend
provided the configured image name and the frame-directory mount string do
not themselves begin with a threshold-flag prefix (true of the defaults). -/
theorem composed_args_flags (o : BridgeManagerOptions) (dir : String)
    (himg : ∀ f ∈ (["--gaze_threshold=", "--blink_threshold=", "--pulse_threshold=",
        "--breathing_threshold="] : List String), ¬ strPre f.data o.dockerImage.data)
    (hmount : ∀ f ∈ (["--gaze_threshold=", "--blink_threshold=", "--pulse_threshold=",
        "--breathing_threshold="] : List String), ¬ strPre f.data (dir ++ ":/frames").data) :
    (hasFlag (localArgs o) "--gaze_threshold=" ↔ o.gazeThreshold.isSome = true) ∧
    (hasFlag (localArgs o) "--blink_threshold=" ↔ o.blinkThreshold.isSome = true) ∧
    (hasFlag (localArgs o) "--pulse_threshold=" ↔ o.pulseThreshold.isSome = true) ∧
    (hasFlag (localArgs o) "--breathing_threshold=" ↔ o.breathingThreshold.isSome = true) ∧
    (hasFlag (localArgs o) "--camera_device_index=" ↔ o.cameraIndex.isSome = true) ∧
    (hasFlag (localArgs o) "--capture_width=" ↔ o.captureWidth.isSome = true) ∧
    (hasFlag (localArgs o) "--capture_height=" ↔ o.captureHeight.isSome = true) ∧
    (hasFlag (dockerRunArgs o dir) "--gaze_threshold=" ↔ o.gazeThreshold.isSome = true) ∧
    (hasFlag (dockerRunArgs o dir) "--blink_threshold=" ↔ o.blinkThreshold.isSome = true) ∧
    (hasFlag (dockerRunArgs o dir) "--pulse_threshold=" ↔ o.pulseThreshold.isSome = true) ∧
    (hasFlag (dockerRunArgs o dir) "--breathing_threshold=" ↔ o.breathingThreshold.isSome = true) := by
  refine ⟨?_, ?_, ?_, ?_, ?_, ?_, ?_, ?_, ?_, ?_, ?_⟩
  · rw [localArgs_eq, hasFlag_addThreshold_gaze]
    have hb := localBase_no o "--gaze_threshold=" (by decide) (by decide)
      (hasFlag_optFlag_ne _ _ _ (by decide) (by decide))
      (hasFlag_optFlag_ne _ _ _ (by decide) (by decide))
      (hasFlag_optFlag_ne _ _ _ (by decide) (by decide))
    tauto
  · rw [localArgs_eq, hasFlag_addThreshold_blink]
    have hb := localBase_no o "--blink_threshold=" (by decide) (by decide)
      (hasFlag_optFlag_ne _ _ _ (by decide) (by decide))
      (hasFlag_optFlag_ne _ _ _ (by decide) (by decide))
      (hasFlag_optFlag_ne _ _ _ (by decide) (by decide))
    tauto
  · rw [localArgs_eq, hasFlag_addThreshold_pulse]
    have hb := localBase_no o "--pulse_threshold=" (by decide) (by decide)
      (hasFlag_optFlag_ne _ _ _ (by decide) (by decide))
      (hasFlag_optFlag_ne _ _ _ (by decide) (by decide))
      (hasFlag_optFlag_ne _ _ _ (by decide) (by decide))
    tauto
  · rw [localArgs_eq, hasFlag_addThreshold_breathing]
    have hb := localBase_no o "--breathing_threshold=" (by decide) (by decide)
      (hasFlag_optFlag_ne _ _ _ (by decide) (by decide))
      (hasFlag_optFlag_ne _ _ _ (by decide) (by decide))
      (hasFlag_optFlag_ne _ _ _ (by decide) (by decide))
    tauto
  · rw [localArgs_eq,
      hasFlag_addThreshold_other o _ "--camera_device_index=" (by decide) (by decide) (by decide)
        (by decide) (by decide) (by decide) (by decide) (by decide)]
    simp only [hasFlag_append, hasFlag_optFlag_self]
    have napi : ¬ hasFlag ["--api_key=" ++ o.apiKey] "--camera_device_index=" := by
      apply not_hasFlag_single
      rw [string_data_append]
      exact not_strPre_append _ (by decide) (by decide)
    have nw := hasFlag_optFlag_ne o.captureWidth "--capture_width=" "--camera_device_index="
      (by decide) (by decide)
    have nh := hasFlag_optFlag_ne o.captureHeight "--capture_height=" "--camera_device_index="
      (by decide) (by decide)
    tauto
  · rw [localArgs_eq,
      hasFlag_addThreshold_other o _ "--capture_width=" (by decide) (by decide) (by decide)
        (by decide) (by decide) (by decide) (by decide) (by decide)]
    simp only [hasFlag_append, hasFlag_optFlag_self]
    have napi : ¬ hasFlag ["--api_key=" ++ o.apiKey] "--capture_width=" := by
      apply not_hasFlag_single
      rw [string_data_append]
      exact not_strPre_append _ (by decide) (by decide)
    have nc := hasFlag_optFlag_ne o.cameraIndex "--camera_device_index=" "--capture_width="
      (by decide) (by decide)
    have nh := hasFlag_optFlag_ne o.captureHeight "--capture_height=" "--capture_width="
      (by decide) (by decide)
    tauto
  · rw [localArgs_eq,
      hasFlag_addThreshold_other o _ "--capture_height=" (by decide) (by decide) (by decide)
        (by decide) (by decide) (by decide) (by decide) (by decide)]
    simp only [hasFlag_append, hasFlag_optFlag_self]
    have napi : ¬ hasFlag ["--api_key=" ++ o.apiKey] "--capture_height=" := by
      apply not_hasFlag_single
      rw [string_data_append]
      exact not_strPre_append _ (by decide) (by decide)
    have nc := hasFlag_optFlag_ne o.cameraIndex "--camera_device_index=" "--capture_height="
      (by decide) (by decide)
    have nw := hasFlag_optFlag_ne o.captureWidth "--capture_width=" "--capture_height="
      (by decide) (by decide)
    tauto
  · unfold dockerRunArgs
    rw [hasFlag_addThreshold_gaze]
    have hb := dockerBase_no_threshold o dir "--gaze_threshold="
      (himg _ (by decide)) (hmount _ (by decide)) (by decide) (by decide) (by decide) (by decide)
    tauto
  · unfold dockerRunArgs
    rw [hasFlag_addThreshold_blink]
    have hb := dockerBase_no_threshold o dir "--blink_threshold="
      (himg _ (by decide)) (hmount _ (by decide)) (by decide) (by decide) (by decide) (by decide)
    tauto
  · unfold dockerRunArgs
    rw [hasFlag_addThreshold_pulse]
    have hb := dockerBase_no_threshold o dir "--pulse_threshold="
      (himg _ (by decide)) (hmount _ (by decide)) (by decide) (by decide) (by decide) (by decide)
    tauto
  · unfold dockerRunArgs
    rw [hasFlag_addThreshold_breathing]
    have hb := dockerBase_no_threshold o dir "--breathing_threshold="
      (himg _ (by decide)) (hmount _ (by decide)) (by decide) (by decide) (by decide) (by decide)
    tauto

/-- C7 witness: the amended claim at a concrete ordinary configuration, for
one representative flag of each backend. -/
theorem composed_args_flags_witness :
    (hasFlag (localArgs sampleFlagOpts) "--gaze_threshold=" ↔
      sampleFlagOpts.gazeThreshold.isSome = true) ∧
    (hasFlag (dockerRunArgs sampleFlagOpts "/tmp/focus-wizard-frames") "--gaze_threshold=" ↔
      sampleFlagOpts.gazeThreshold.isSome = true) :=
  ⟨(composed_args_flags sampleFlagOpts "/tmp/focus-wizard-frames" (by decide) (by decide)).1,
   (composed_args_flags sampleFlagOpts "/tmp/focus-wizard-frames"
      (by decide) (by decide)).2.2.2.2.2.2.2.1⟩
